import Mathlib

/-!
# Verification of the client-side list-management pipeline

Shallow embedding of the search → filter → sort → paginate → select → export
pipeline of the admin dashboard (pages `Orders.tsx`, `Products.tsx` and the
selection-based products list), together with proofs of the specified
properties.

Conventions of the embedding:
* JavaScript strings are Lean `String`s; `toLowerCase` is `Char.toLower`
  mapped over the character data; `String.prototype.includes` is the
  (decidable) list-infix relation on the character data.
* `localeCompare` is modelled as the lexicographic comparison given by the
  linear order on `String`; a JS comparator returning a number is modelled
  as an `Int`-valued function whose sign carries the ordering.
* `Array.prototype.sort` with a consistent comparator is, per the ECMAScript
  specification, the stable sort by that comparator; it is modelled by
  `List.mergeSort` with the reflexive comparison `cmp a b ≤ 0`.
* `Date` values are concrete calendar dates; `getTime` is a strictly
  monotone injection into `Nat`.
* A JS `Set` of ids is a `Finset String`.
* Handlers that fire toasts and trigger downloads return, next to the new
  component state, the list of emitted notifications and file-save calls.
-/

/-- A calendar date (the fields of a JS `Date` that the pages consume). -/
structure Date where
  year : Nat
  month : Nat
  day : Nat
deriving DecidableEq, Repr

/-- Model of `Date.prototype.getTime`: a strictly monotone injection of calendar
dates into numbers (months run 1–12, days 1–31, both below the radixes). -/
def Date.time (d : Date) : Nat :=
  (d.year * 13 + d.month) * 32 + d.day

/-- One record of `mockOrders` (`data/types.ts`), with the fields the
Orders page reads. -/
structure Order where
  id : String
  customerName : String
  status : String
  createdAt : Date
  total : Nat
deriving DecidableEq, Repr

/-- One record of the products pages (the `Product` of `data/types.ts`
plus the `lastUpdated` field `Products.tsx` adds). -/
structure Product where
  id : String
  name : String
  description : String
  category : String
  price : Nat
  stock : Nat
  status : String
  lastUpdated : Date
deriving DecidableEq, Repr

/-- Model of `s.toLowerCase()` viewed as character data. -/
def jsToLower (s : String) : List Char :=
  s.data.map Char.toLower

/-- Model of `hay.includes(sub)` on character data: `sub` occurs contiguously in
`hay`. -/
def jsIncludes (hay sub : List Char) : Bool :=
  decide (sub <:+: hay)

/-- The result of `a.localeCompare(b)`: negative, zero or positive as `a`
is below, equal to or above `b` in the string order. -/
def jsCompareStr (a b : String) : Int :=
  if a < b then -1 else if a = b then 0 else 1

/-- The numeric comparator `a - b` used for number- and date-valued sort
columns. -/
def jsCompareNat (a b : Nat) : Int :=
  (a : Int) - (b : Int)

/-- sort direction (`"asc" | "desc"`). -/
inductive SortDirection where
  | asc
  | desc
deriving DecidableEq, Repr

/-- Model of `array.slice(start, stop)` for non-negative indices. -/
def jsSlice {α : Type} (l : List α) (start stop : Nat) : List α :=
  (l.drop start).take (stop - start)

/-- Model of `Array.prototype.sort(comparator)`: the stable sort that places `a`
no later than `b` whenever `comparator a b ≤ 0`. -/
def jsSort {α : Type} (cmp : α → α → Int) (l : List α) : List α :=
  l.mergeSort (fun a b => decide (cmp a b ≤ 0))

/-- Model of `Math.ceil(count / size)` for natural `count` and positive `size`. -/
def totalPagesOf (count size : Nat) : Nat :=
  (count + size - 1) / size

/-- The page-clamping effect shared by the pages:
`if (currentPage > totalPages && totalPages > 0) setCurrentPage(totalPages)`. -/
def clampEffect (currentPage totalPages : Nat) : Nat :=
  if currentPage > totalPages ∧ totalPages > 0 then totalPages else currentPage

/-- A toast emitted through the notification collaborator. -/
inductive Notification where
  | error (msg : String)
  | success (msg : String)
  | info (msg : String)
deriving DecidableEq, Repr

/-- One invocation of the file-save collaborator (blob content and
download filename). -/
structure SaveCall where
  content : String
  filename : String
deriving DecidableEq, Repr

/-- Model of `s.replace(/"/g, '""')`. -/
def jsEscapeQuotes (s : String) : String :=
  ⟨s.data.foldr (fun c acc => if c = '"' then '"' :: '"' :: acc else c :: acc) []⟩

/-- Thousands grouping on a digit list given least-significant first:
a comma after every three digits that are followed by more digits. -/
def groupRev : List Char → List Char
  | a :: b :: c :: d :: rest => a :: b :: c :: ',' :: groupRev (d :: rest)
  | ds => ds

/-- Model of `Intl.NumberFormat("en-US", { style: "currency", currency: "USD", maximumFractionDigits: 2 })`
applied to a whole-dollar amount: `$` sign, comma-grouped dollars, two
cent digits. -/
def formatCurrency (n : Nat) : String :=
  ⟨'$' :: (groupRev (toString n).data.reverse).reverse ++ ['.', '0', '0']⟩

/-- The `MMM` month abbreviations of `date-fns`. -/
def monthName : Nat → String
  | 1 => "Jan" | 2 => "Feb" | 3 => "Mar" | 4 => "Apr"
  | 5 => "May" | 6 => "Jun" | 7 => "Jul" | 8 => "Aug"
  | 9 => "Sep" | 10 => "Oct" | 11 => "Nov" | 12 => "Dec"
  | _ => ""

/-- Model of `format(date, "MMM d, yyyy")` of `date-fns`. -/
def formatDateMMMdyyyy (d : Date) : String :=
  monthName d.month ++ " " ++ toString d.day ++ ", " ++ toString d.year

/-- Model of `format(date, "yyyy-MM-dd")` of `date-fns` (two-digit month and day). -/
def pad2 (n : Nat) : String :=
  if n < 10 then "0" ++ toString n else toString n

/-- Model of `format(date, "yyyy-MM-dd")`. -/
def formatDateIso (d : Date) : String :=
  toString d.year ++ "-" ++ pad2 d.month ++ "-" ++ pad2 d.day

/-- Model of `rows.map(row => row.join(",")).join("\n")`. -/
def csvContent (rows : List (List String)) : String :=
  String.intercalate "\n" (rows.map (String.intercalate ","))

/-- Parser state of the standard CSV line parser: in an unquoted field,
inside a quoted field, or just behind a quote inside a quoted field. -/
inductive CsvMode where
  | plain
  | quoted
  | closing
deriving DecidableEq, Repr

/-- A standard CSV field/record parser for one line: fields are separated
by commas, a field may be wrapped in double quotes, and inside a quoted
field a doubled quote denotes a literal quote.  `cur` is the current field
(reversed), `acc` the finished fields (reversed). -/
def parseCsvLineAux : CsvMode → List Char → List Char → List String → List String
  | _, [], cur, acc => ((⟨cur.reverse⟩ : String) :: acc).reverse
  | .quoted, c :: rest, cur, acc =>
      if c = '"' then parseCsvLineAux .closing rest cur acc
      else parseCsvLineAux .quoted rest (c :: cur) acc
  | .closing, c :: rest, cur, acc =>
      if c = '"' then parseCsvLineAux .quoted rest (c :: cur) acc
      else if c = ',' then parseCsvLineAux .plain rest [] ((⟨cur.reverse⟩ : String) :: acc)
      else parseCsvLineAux .plain rest (c :: cur) acc
  | .plain, c :: rest, cur, acc =>
      if c = ',' then parseCsvLineAux .plain rest [] ((⟨cur.reverse⟩ : String) :: acc)
      else if c = '"' then parseCsvLineAux .quoted rest cur acc
      else parseCsvLineAux .plain rest (c :: cur) acc

/-- Parse one CSV line into its fields with a standard CSV parser. -/
def parseCsvLine (s : String) : List String :=
  parseCsvLineAux CsvMode.plain s.data [] []

namespace Orders

/-- Model of `SORTABLE_COLUMNS = ["id", "customerName", "createdAt", "total"]`. -/
inductive SortColumn where
  | id
  | customerName
  | createdAt
  | total
deriving DecidableEq, Repr

/-- The comparator body of `filteredOrders` for one column in ascending
direction: `localeCompare` on string columns, numeric difference on the
total, difference of `getTime` on the date column. -/
def cmpByColumn (c : SortColumn) (a b : Order) : Int :=
  match c with
  | .id => jsCompareStr a.id b.id
  | .customerName => jsCompareStr a.customerName b.customerName
  | .createdAt => jsCompareNat a.createdAt.time b.createdAt.time
  | .total => jsCompareNat a.total b.total

/-- The full comparator of `filteredOrders`: descending swaps the two
arguments in every branch. -/
def orderComparator (c : SortColumn) (dir : SortDirection) (a b : Order) : Int :=
  match dir with
  | .asc => cmpByColumn c a b
  | .desc => cmpByColumn c b a

/-- Model of `matchesSearch` of the Orders filter predicate:
`order.id.toLowerCase().includes(q.toLowerCase()) || order.customerName.toLowerCase().includes(q.toLowerCase())`. -/
def matchesSearch (searchQuery : String) (o : Order) : Bool :=
  jsIncludes (jsToLower o.id) (jsToLower searchQuery) ||
    jsIncludes (jsToLower o.customerName) (jsToLower searchQuery)

/-- Model of `matchesStatus`: `statusFilter === "all" || order.status === statusFilter`. -/
def matchesStatus (statusFilter : String) (o : Order) : Bool :=
  statusFilter == "all" || o.status == statusFilter

/-- Model of `filteredOrders` (Orders.tsx): filter by search and status, then, when
a sort column is selected, stable-sort by the comparator. -/
def filteredOrders (orders : List Order) (searchQuery statusFilter : String)
    (sortColumn : Option SortColumn) (sortDirection : SortDirection) : List Order :=
  let result := orders.filter fun o =>
    matchesSearch searchQuery o && matchesStatus statusFilter o
  match sortColumn with
  | none => result
  | some c => jsSort (orderComparator c sortDirection) result

/-- Model of `paginatedOrders`: `filteredOrders.slice(startIndex, startIndex + itemsPerPage)`
with `startIndex = (currentPage - 1) * itemsPerPage`. -/
def paginatedOrders (filtered : List Order) (currentPage itemsPerPage : Nat) : List Order :=
  jsSlice filtered ((currentPage - 1) * itemsPerPage)
    ((currentPage - 1) * itemsPerPage + itemsPerPage)

/-- The sort-related state of the page that `handleSort` touches. -/
structure SortState where
  sortColumn : Option SortColumn
  sortDirection : SortDirection
  currentPage : Nat
deriving DecidableEq, Repr

/-- Model of `handleSort`: select the column, toggle the direction when the column
already was the (ascending) sort column, and return to page 1. -/
def handleSort (s : SortState) (column : SortColumn) : SortState :=
  { sortColumn := some column
    sortDirection :=
      if s.sortColumn = some column ∧ s.sortDirection = SortDirection.asc then
        SortDirection.desc
      else SortDirection.asc
    currentPage := 1 }

/-- Model of `handleSelectOrder`: the sentinel id `"all"` toggles the whole visible
page (adding every paginated id when checked, clearing the entire set when
unchecked); any other id toggles its own membership. -/
def handleSelectOrder (selectedIds : Finset String) (paginated : List Order)
    (id : String) (checked : Bool) : Finset String :=
  if id = "all" then
    if checked then paginated.foldl (fun s o => insert o.id s) selectedIds
    else ∅
  else
    if checked then insert id selectedIds else selectedIds.erase id

/-- The state of the Orders page read or written by the bulk handlers. -/
structure OrdersState where
  orders : List Order
  searchQuery : String
  statusFilter : String
  currentPage : Nat
  selectedIds : Finset String
  sortColumn : Option SortColumn
  sortDirection : SortDirection
  showCancelDialog : Bool

/-- The CSV row `handleExportOrders` builds for one order: raw id, quoted
and escaped customer name, `MMM d, yyyy` date, raw status, formatted
currency. -/
def orderCsvRow (o : Order) : List String :=
  [o.id,
   "\"" ++ jsEscapeQuotes o.customerName ++ "\"",
   formatDateMMMdyyyy o.createdAt,
   o.status,
   formatCurrency o.total]

/-- Model of `handleExportOrders`: abort with an error toast when nothing is
selected; otherwise build the CSV of the selected orders and hand it to
the file-save collaborator.  The page state is never modified. -/
def handleExportOrders (s : OrdersState) (today : String) :
    OrdersState × List Notification × List SaveCall :=
  if s.selectedIds.card = 0 then
    (s, [Notification.error "Please select at least one order to export"], [])
  else
    let selectedOrders := s.orders.filter fun o => decide (o.id ∈ s.selectedIds)
    let content := csvContent
      (["ID", "Customer", "Date", "Status", "Total"] :: selectedOrders.map orderCsvRow)
    (s, [Notification.success (toString s.selectedIds.card ++ " order(s) exported successfully")],
     [⟨content, "orders_" ++ today ++ ".csv"⟩])

/-- Model of `handleBulkCancel`: abort with an error toast when nothing is
selected; otherwise open the confirmation dialog. -/
def handleBulkCancel (s : OrdersState) : OrdersState × List Notification :=
  if s.selectedIds.card = 0 then
    (s, [Notification.error "Please select at least one order to cancel"])
  else
    ({ s with showCancelDialog := true }, [])

end Orders

namespace Products

/-- Model of `type SortColumn = "name" | "category" | "price" | "stock" | "lastUpdated"`
(Products.tsx). -/
inductive SortColumn where
  | name
  | category
  | price
  | stock
  | lastUpdated
deriving DecidableEq, Repr

/-- The comparator body of `filteredProducts` (Products.tsx) for one
column in ascending direction; `lastUpdated` is compared by `getTime`. -/
def cmpByColumn (c : SortColumn) (a b : Product) : Int :=
  match c with
  | .name => jsCompareStr a.name b.name
  | .category => jsCompareStr a.category b.category
  | .price => jsCompareNat a.price b.price
  | .stock => jsCompareNat a.stock b.stock
  | .lastUpdated => jsCompareNat a.lastUpdated.time b.lastUpdated.time

/-- The full comparator of `filteredProducts` (Products.tsx). -/
def productComparator (c : SortColumn) (dir : SortDirection) (a b : Product) : Int :=
  match dir with
  | .asc => cmpByColumn c a b
  | .desc => cmpByColumn c b a

/-- The search predicate of Products.tsx: lower-cased query contained in
the lower-cased name, description or category. -/
def matchesSearch (searchQuery : String) (p : Product) : Bool :=
  jsIncludes (jsToLower p.name) (jsToLower searchQuery) ||
    jsIncludes (jsToLower p.description) (jsToLower searchQuery) ||
      jsIncludes (jsToLower p.category) (jsToLower searchQuery)

/-- Model of `filteredProducts` (Products.tsx): search, status equality (with the
`"all"` wildcard), category equality (with the `"all"` wildcard), then the
optional stable sort. -/
def filteredProducts (products : List Product) (searchQuery statusFilter categoryFilter : String)
    (sortColumn : Option SortColumn) (sortDirection : SortDirection) : List Product :=
  let result := products.filter fun p =>
    matchesSearch searchQuery p &&
      (statusFilter == "all" || p.status == statusFilter) &&
        (categoryFilter == "all" || p.category == categoryFilter)
  match sortColumn with
  | none => result
  | some c => jsSort (productComparator c sortDirection) result

/-- The Products.tsx state the export handler reads. -/
structure ProductsState where
  products : List Product
  searchQuery : String
  statusFilter : String
  categoryFilter : String
  currentPage : Nat
  sortColumn : Option SortColumn
  sortDirection : SortDirection

/-- The CSV row `handleExportProducts` (Products.tsx) builds for one
product: only name and description are quoted and escaped. -/
def productCsvRow (p : Product) : List String :=
  [p.id,
   "\"" ++ jsEscapeQuotes p.name ++ "\"",
   "\"" ++ jsEscapeQuotes p.description ++ "\"",
   p.category,
   toString p.price,
   toString p.stock,
   p.status,
   formatDateIso p.lastUpdated]

/-- Model of `handleExportProducts` (Products.tsx): builds the CSV of the whole
`filteredProducts` list and hands it to the file-save collaborator
unconditionally — there is no selection and no empty-input check. -/
def handleExportProducts (s : ProductsState) (today : String) :
    ProductsState × List Notification × List SaveCall :=
  let filtered := filteredProducts s.products s.searchQuery s.statusFilter
    s.categoryFilter s.sortColumn s.sortDirection
  let content := csvContent
    (["ID", "Name", "Description", "Category", "Price", "Stock", "Status", "Last Updated"]
      :: filtered.map productCsvRow)
  (s, [Notification.success (toString filtered.length ++ " product(s) exported successfully")],
   [⟨content, "products_" ++ today ++ ".csv"⟩])

end Products

namespace ProductsList

/-- Model of `SORTABLE_COLUMNS = ["name", "category", "price", "stock"]` of the
selection-based products list. -/
inductive SortColumn where
  | name
  | category
  | price
  | stock
deriving DecidableEq, Repr

/-- The comparator body of `filteredProducts` (selection-based products
list) for one column in ascending direction. -/
def cmpByColumn (c : SortColumn) (a b : Product) : Int :=
  match c with
  | .name => jsCompareStr a.name b.name
  | .category => jsCompareStr a.category b.category
  | .price => jsCompareNat a.price b.price
  | .stock => jsCompareNat a.stock b.stock

/-- The full comparator of `filteredProducts` (selection-based list). -/
def productComparator (c : SortColumn) (dir : SortDirection) (a b : Product) : Int :=
  match dir with
  | .asc => cmpByColumn c a b
  | .desc => cmpByColumn c b a

/-- Model of `filteredProducts` of the selection-based products list: a pure
search filter over name, description and category, then the optional
stable sort. -/
def filteredProducts (products : List Product) (searchQuery : String)
    (sortColumn : Option SortColumn) (sortDirection : SortDirection) : List Product :=
  let result := products.filter fun p =>
    jsIncludes (jsToLower p.name) (jsToLower searchQuery) ||
      jsIncludes (jsToLower p.description) (jsToLower searchQuery) ||
        jsIncludes (jsToLower p.category) (jsToLower searchQuery)
  match sortColumn with
  | none => result
  | some c => jsSort (productComparator c sortDirection) result

/-- Model of `handleSelectProduct` of the selection-based products list: the same
all-or-nothing semantics as `handleSelectOrder`. -/
def handleSelectProduct (selectedIds : Finset String) (paginated : List Product)
    (id : String) (checked : Bool) : Finset String :=
  if id = "all" then
    if checked then paginated.foldl (fun s p => insert p.id s) selectedIds
    else ∅
  else
    if checked then insert id selectedIds else selectedIds.erase id

/-- The state of the selection-based products list read by its export
handler. -/
structure ListState where
  products : List Product
  selectedIds : Finset String

/-- The CSV row of the selection-based list's export. -/
def productCsvRow (p : Product) : List String :=
  [p.id,
   "\"" ++ jsEscapeQuotes p.name ++ "\"",
   "\"" ++ jsEscapeQuotes p.description ++ "\"",
   p.category,
   toString p.price,
   toString p.stock,
   p.status]

/-- Model of `handleExportProducts` of the selection-based products list: aborts
with an error toast when nothing is selected, otherwise saves the CSV of
the selected products.  The state is never modified. -/
def handleExportProducts (s : ListState) (today : String) :
    ListState × List Notification × List SaveCall :=
  if s.selectedIds.card = 0 then
    (s, [Notification.error "Please select at least one product to export"], [])
  else
    let selectedProducts := s.products.filter fun p => decide (p.id ∈ s.selectedIds)
    let content := csvContent
      (["ID", "Name", "Description", "Category", "Price", "Stock", "Status"]
        :: selectedProducts.map productCsvRow)
    (s, [Notification.success (toString s.selectedIds.card ++ " product(s) exported successfully")],
     [⟨content, "products_" ++ today ++ ".csv"⟩])

end ProductsList

/-! ## Concrete instances used in scenarios and counterexamples -/

/-- A deterministic stand-in for one record of the 45 randomly generated
`mockOrders` (the generator draws random statuses, dates and totals; the
claims hold for every choice, so any concrete choice instantiates them). -/
def mkOrder (i : Nat) : Order :=
  ⟨"order-" ++ toString (i + 1), "Customer " ++ toString (i % 25 + 1),
   if i % 5 = 0 then "cancelled" else "pending",
   ⟨2023, i % 12 + 1, i % 28 + 1⟩, 100 + i⟩

/-- A concrete 45-order source collection. -/
def srcW : List Order := (List.range 45).map mkOrder

/-- The selection set of the concrete selection scenario. -/
def selC2 : Finset String := {"order-3", "order-7"}

/-- The visible page `order-3 .. order-12` of the selection scenario. -/
def ordersC2 : List Order := (List.range 10).map fun i => mkOrder (i + 2)

/-- An Orders-page state with an empty selection. -/
def ordersStateC3 : Orders.OrdersState :=
  ⟨[], "", "all", 1, ∅, none, SortDirection.asc, false⟩

/-- A selection-based products-list state with an empty selection. -/
def listStateC3 : ProductsList.ListState := ⟨[], ∅⟩

/-- A Products.tsx state; its export handler has no selection at all, so
it runs with zero selected identifiers. -/
def prodStateC3 : Products.ProductsState :=
  ⟨[], "", "all", "all", 1, none, SortDirection.asc⟩

/-- An order whose exported date (`Jan 5, 2023`) and total (`$1,234.00`)
both contain the CSV delimiter. -/
def oC5 : Order := ⟨"order-1", "Alice", "pending", ⟨2023, 1, 5⟩, 1234⟩

/-- An order whose id is matched by the query `"abc"` but not by the
query `"ac"` obtained from it by removing the middle character. -/
def oAbc : Order := ⟨"abc", "x", "pending", ⟨2023, 1, 1⟩, 5⟩

/-- Two distinct orders with the same total (a sort-key tie). -/
def oTie1 : Order := ⟨"order-1", "A", "pending", ⟨2023, 1, 1⟩, 100⟩

/-- Second order of the tie; differs from `oTie1` in every other field. -/
def oTie2 : Order := ⟨"order-2", "B", "pending", ⟨2023, 1, 2⟩, 100⟩

/-- Two orders with distinct totals. -/
def oA : Order := ⟨"order-1", "A", "pending", ⟨2023, 1, 1⟩, 100⟩

/-- Second order, with a larger total than `oA`. -/
def oB : Order := ⟨"order-2", "B", "pending", ⟨2023, 1, 2⟩, 250⟩

/-! ## Properties of the comparators -/

/-- What the sort correctness arguments need of a JS comparator: a total
preorder presented by the sign of the comparator value. -/
structure IsKeyComparator {α : Type} (cmp : α → α → Int) : Prop where
  total : ∀ a b, cmp a b ≤ 0 ∨ cmp b a ≤ 0
  trans : ∀ a b c, cmp a b ≤ 0 → cmp b c ≤ 0 → cmp a c ≤ 0
  antisymm : ∀ a b, cmp a b ≤ 0 → cmp b a ≤ 0 → cmp a b = 0
  zero_symm : ∀ a b, cmp a b = 0 → cmp b a = 0

theorem jsCompareStr_nonpos {a b : String} : jsCompareStr a b ≤ 0 ↔ a ≤ b := by
  unfold jsCompareStr
  rcases lt_trichotomy a b with h | h | h
  · simp [h, le_of_lt h]
  · simp [h]
  · have h1 : ¬a < b := not_lt_of_gt h
    have h2 : a ≠ b := ne_of_gt h
    simp [h1, h2, not_le_of_gt h]

theorem jsCompareStr_eq_zero {a b : String} : jsCompareStr a b = 0 ↔ a = b := by
  unfold jsCompareStr
  rcases lt_trichotomy a b with h | h | h
  · simp [h, ne_of_lt h]
  · simp [h]
  · have h1 : ¬a < b := not_lt_of_gt h
    have h2 : a ≠ b := ne_of_gt h
    simp [h1, h2]

theorem jsCompareNat_nonpos {a b : Nat} : jsCompareNat a b ≤ 0 ↔ a ≤ b := by
  unfold jsCompareNat; omega

theorem jsCompareNat_eq_zero {a b : Nat} : jsCompareNat a b = 0 ↔ a = b := by
  unfold jsCompareNat; omega

theorem isKeyComparator_str {α : Type} (k : α → String) :
    IsKeyComparator fun a b => jsCompareStr (k a) (k b) := by
  refine ⟨?_, ?_, ?_, ?_⟩
  · intro a b
    rw [jsCompareStr_nonpos, jsCompareStr_nonpos]
    exact le_total (k a) (k b)
  · intro a b c hab hbc
    rw [jsCompareStr_nonpos] at *
    exact le_trans hab hbc
  · intro a b hab hba
    rw [jsCompareStr_nonpos] at hab hba
    rw [jsCompareStr_eq_zero]
    exact le_antisymm hab hba
  · intro a b h
    rw [jsCompareStr_eq_zero] at *
    exact h.symm

theorem isKeyComparator_nat {α : Type} (k : α → Nat) :
    IsKeyComparator fun a b => jsCompareNat (k a) (k b) := by
  refine ⟨?_, ?_, ?_, ?_⟩
  · intro a b
    rw [jsCompareNat_nonpos, jsCompareNat_nonpos]
    exact le_total (k a) (k b)
  · intro a b c hab hbc
    rw [jsCompareNat_nonpos] at *
    exact le_trans hab hbc
  · intro a b hab hba
    rw [jsCompareNat_nonpos] at hab hba
    rw [jsCompareNat_eq_zero]
    exact le_antisymm hab hba
  · intro a b h
    rw [jsCompareNat_eq_zero] at *
    exact h.symm

theorem isKeyComparator_flip {α : Type} {cmp : α → α → Int}
    (h : IsKeyComparator cmp) : IsKeyComparator fun a b => cmp b a :=
  ⟨fun a b => h.total b a,
   fun a b c hab hbc => h.trans c b a hbc hab,
   fun a b hab hba => h.antisymm b a hab hba,
   fun a b hz => h.zero_symm b a hz⟩

theorem Orders.cmpByColumn_key (c : Orders.SortColumn) :
    IsKeyComparator (Orders.cmpByColumn c) := by
  cases c
  · exact isKeyComparator_str Order.id
  · exact isKeyComparator_str Order.customerName
  · exact isKeyComparator_nat fun o : Order => o.createdAt.time
  · exact isKeyComparator_nat Order.total

theorem Orders.orderComparator_key (c : Orders.SortColumn) (dir : SortDirection) :
    IsKeyComparator (Orders.orderComparator c dir) := by
  cases dir
  · exact Orders.cmpByColumn_key c
  · exact isKeyComparator_flip (Orders.cmpByColumn_key c)

/-! ## Generic facts about the modelled JS sort -/

theorem jsSort_le_trans {α : Type} {cmp : α → α → Int} (h : IsKeyComparator cmp) :
    ∀ a b c : α, decide (cmp a b ≤ 0) = true → decide (cmp b c ≤ 0) = true →
      decide (cmp a c ≤ 0) = true := by
  intro a b c hab hbc
  rw [decide_eq_true_eq] at *
  exact h.trans a b c hab hbc

theorem jsSort_le_total {α : Type} {cmp : α → α → Int} (h : IsKeyComparator cmp) :
    ∀ a b : α, (decide (cmp a b ≤ 0) || decide (cmp b a ≤ 0)) = true := by
  intro a b
  rcases h.total a b with hh | hh <;> simp [hh]

theorem jsSort_perm {α : Type} (cmp : α → α → Int) (l : List α) :
    (jsSort cmp l).Perm l :=
  List.mergeSort_perm l _

theorem jsSort_sorted {α : Type} {cmp : α → α → Int} (h : IsKeyComparator cmp)
    (l : List α) : (jsSort cmp l).Pairwise fun a b => cmp a b ≤ 0 := by
  have hs := List.sorted_mergeSort (jsSort_le_trans h) (jsSort_le_total h) l
  exact hs.imp fun hab => of_decide_eq_true hab

theorem jsSort_pair_sublist {α : Type} {cmp : α → α → Int} (h : IsKeyComparator cmp)
    {a b : α} (hab : cmp a b ≤ 0) {l : List α} (hl : List.Sublist [a, b] l) :
    List.Sublist [a, b] (jsSort cmp l) :=
  List.pair_sublist_mergeSort (jsSort_le_trans h) (jsSort_le_total h)
    (decide_eq_true hab) hl

/-- A list that is already sorted (ties included) is returned unchanged —
the stability of the modelled `Array.prototype.sort`. -/
theorem jsSort_of_pairwise {α : Type} {cmp : α → α → Int} {l : List α}
    (h : l.Pairwise fun a b => cmp a b ≤ 0) : jsSort cmp l = l :=
  List.mergeSort_of_sorted (h.imp fun hab => decide_eq_true hab)

/-- Two lists that are permutations of each other and both sorted for an
asymmetric relation are equal. -/
theorem eq_of_perm_of_pairwise_asymm {α : Type} {S : α → α → Prop}
    (hasym : ∀ x y, S x y → S y x → False) {l₁ l₂ : List α} (hp : l₁.Perm l₂)
    (h₁ : l₁.Pairwise S) (h₂ : l₂.Pairwise S) : l₁ = l₂ := by
  induction l₁ generalizing l₂ with
  | nil => exact List.Perm.nil_eq hp
  | cons x xs ih =>
    cases l₂ with
    | nil => exact absurd hp.eq_nil (by simp)
    | cons y ys =>
      by_cases hxy : x = y
      · subst hxy
        exact congrArg (x :: ·) (ih hp.cons_inv h₁.tail h₂.tail)
      · have hxys : x ∈ ys := by
          have hx2 : x ∈ y :: ys := hp.mem_iff.mp (List.mem_cons_self x xs)
          cases hx2 with
          | head => exact absurd rfl hxy
          | tail _ hm => exact hm
        have hyxs : y ∈ xs := by
          have hy1 : y ∈ x :: xs := hp.symm.mem_iff.mp (List.mem_cons_self y ys)
          cases hy1 with
          | head => exact absurd rfl fun hh => hxy hh.symm
          | tail _ hm => exact hm
        exact absurd (List.rel_of_pairwise_cons h₁ hyxs)
          fun hSxy => hasym x y hSxy (List.rel_of_pairwise_cons h₂ hxys)

/-! ## Structural facts about the Orders pipeline -/

/-- Selecting a sort column sorts exactly the unsorted filter result. -/
theorem Orders.filteredOrders_some (src : List Order) (q st : String)
    (c : Orders.SortColumn) (dir : SortDirection) :
    Orders.filteredOrders src q st (some c) dir
      = jsSort (Orders.orderComparator c dir)
          (Orders.filteredOrders src q st none SortDirection.asc) := rfl

/-- Narrowing the query preserves failure of, equivalently widening the
query preserves success of, the search predicate: a search that matches
`q` matches every contiguous substring `q'` of `q`. -/
theorem Orders.matchesSearch_mono {q q' : String} (h : q'.data <:+: q.data)
    (o : Order) (hq : Orders.matchesSearch q o = true) :
    Orders.matchesSearch q' o = true := by
  have hl : List.IsInfix (jsToLower q') (jsToLower q) :=
    List.IsInfix.map Char.toLower h
  unfold Orders.matchesSearch jsIncludes at *
  rcases Bool.or_eq_true_iff.mp hq with h1 | h1
  · exact Bool.or_eq_true_iff.mpr (Or.inl (decide_eq_true (hl.trans (of_decide_eq_true h1))))
  · exact Bool.or_eq_true_iff.mpr (Or.inr (decide_eq_true (hl.trans (of_decide_eq_true h1))))

/-- Membership after folding `insert` of every id of a page over a
selection set. -/
theorem mem_foldl_insert_id (l : List Order) (init : Finset String) (x : String) :
    x ∈ l.foldl (fun s o => insert o.id s) init ↔ x ∈ init ∨ x ∈ l.map Order.id := by
  induction l generalizing init with
  | nil => simp
  | cons o l ih =>
    rw [List.foldl_cons, ih]
    simp [Finset.mem_insert]
    tauto

/-! ## The claims -/

/-- C10: invoking the sort handler on column `c` sets the sort column to
`c`, resets the page to 1, and yields descending direction exactly when
the previous state already sorted ascending by `c`; any other previous
state (in particular a different column) yields ascending direction. -/
theorem C10_handleSort_toggle (s : Orders.SortState) (c : Orders.SortColumn) :
    (Orders.handleSort s c).sortColumn = some c
    ∧ (Orders.handleSort s c).currentPage = 1
    ∧ ((Orders.handleSort s c).sortDirection = SortDirection.desc
        ↔ s.sortColumn = some c ∧ s.sortDirection = SortDirection.asc) := by
  refine ⟨rfl, rfl, ?_⟩
  unfold Orders.handleSort
  split
  · simp_all
  · next h => simp [h]

/-- C9: the Predicate Filter's output is an order-preserving subsequence
of the source collection — for the Orders filter and for the
selection-based products list's filter, for every query and categorical
filter, not only the empty query. -/
theorem C9_filter_subsequence (srcO : List Order) (q st : String)
    (srcP : List Product) (qP : String) :
    List.Sublist (Orders.filteredOrders srcO q st none SortDirection.asc) srcO
    ∧ (∀ o ∈ Orders.filteredOrders srcO q st none SortDirection.asc, o ∈ srcO)
    ∧ List.Sublist (ProductsList.filteredProducts srcP qP none SortDirection.asc) srcP :=
  ⟨List.filter_sublist srcO,
   fun _ ho => (List.filter_sublist srcO).subset ho,
   List.filter_sublist srcP⟩

/-- C4 counterexample: after a filter change that empties the collection
(`totalPages = 0`), the page-clamping effect leaves a stale page number 5
in place instead of setting the page to 1 as the claim states. -/
theorem C4_counterexample : clampEffect 5 0 = 5 ∧ clampEffect 5 0 ≠ 1 := by decide

/-- C4 (amended): for a current page that is at least 1, the clamping
effect brings the page into `[1, totalPages]` whenever `totalPages > 0`;
when `totalPages = 0` the page is left unchanged (it is not set to 1). -/
theorem C4_page_clamp (page tp : Nat) (h1 : 1 ≤ page) :
    (0 < tp → 1 ≤ clampEffect page tp ∧ clampEffect page tp ≤ tp)
    ∧ (tp = 0 → clampEffect page tp = page) := by
  unfold clampEffect
  constructor
  · intro htp
    split <;> omega
  · intro h0
    subst h0
    split <;> omega

/-- C4 witness: the amended clamp theorem at page 5 of 3 total pages. -/
theorem C4_page_clamp_witness :
    1 ≤ 5
    ∧ ((0 < 3 → 1 ≤ clampEffect 5 3 ∧ clampEffect 5 3 ≤ 3)
        ∧ (3 = 0 → clampEffect 5 3 = 5)) :=
  ⟨by decide, C4_page_clamp 5 3 (by decide)⟩

/-- C2: checking "select all" yields exactly the previous selection plus
every visible id, and unchecking it empties the entire selection set
whatever it contained; in the concrete scenario, unchecking with
selection `{order-3, order-7}` and visible page `order-3 .. order-12`
leaves a set of size 0. -/
theorem C2_toggleAll (S : Finset String) (V : List Order) :
    (∀ x, x ∈ Orders.handleSelectOrder S V "all" true ↔ x ∈ S ∨ x ∈ V.map Order.id)
    ∧ Orders.handleSelectOrder S V "all" false = ∅
    ∧ (Orders.handleSelectOrder selC2 ordersC2 "all" false).card = 0 := by
  refine ⟨?_, ?_, ?_⟩
  · intro x
    unfold Orders.handleSelectOrder
    rw [if_pos rfl, if_pos rfl]
    exact mem_foldl_insert_id V S x
  · rfl
  · rfl

/-- C3 counterexample: the Products.tsx export handler takes no selection
at all, so it runs with zero selected identifiers — yet it performs a
file-save call (even for an empty record set) and reports success, not an
EmptySelection error. -/
theorem C3_counterexample :
    (Products.handleExportProducts prodStateC3 "2026-10-11").2.2 =
      [⟨"ID,Name,Description,Category,Price,Stock,Status,Last Updated",
        "products_2026-10-11.csv"⟩]
    ∧ (Products.handleExportProducts prodStateC3 "2026-10-11").2.1 =
      [Notification.success "0 product(s) exported successfully"] := by
  constructor <;> rfl

/-- C3 (amended): the selection-based operations — Orders export, Orders
bulk cancel, and the selection-based products-list export — abort on an
empty selection with an error notification, perform no file-save call,
and leave the page state unchanged; the Products.tsx export, which takes
no selection, saves unconditionally. -/
theorem C3_empty_selection (s : Orders.OrdersState) (sl : ProductsList.ListState)
    (today : String) (h : s.selectedIds.card = 0) (h2 : sl.selectedIds.card = 0) :
    Orders.handleExportOrders s today
      = (s, [Notification.error "Please select at least one order to export"], [])
    ∧ Orders.handleBulkCancel s
      = (s, [Notification.error "Please select at least one order to cancel"])
    ∧ ProductsList.handleExportProducts sl today
      = (sl, [Notification.error "Please select at least one product to export"], []) := by
  refine ⟨?_, ?_, ?_⟩
  · unfold Orders.handleExportOrders
    rw [if_pos h]
  · unfold Orders.handleBulkCancel
    rw [if_pos h]
  · unfold ProductsList.handleExportProducts
    rw [if_pos h2]

/-- C3 witness: the amended theorem at concrete states with empty
selections. -/
theorem C3_empty_selection_witness :
    ordersStateC3.selectedIds.card = 0
    ∧ listStateC3.selectedIds.card = 0
    ∧ (Orders.handleExportOrders ordersStateC3 "2026-10-11"
        = (ordersStateC3, [Notification.error "Please select at least one order to export"], [])
      ∧ Orders.handleBulkCancel ordersStateC3
        = (ordersStateC3, [Notification.error "Please select at least one order to cancel"])
      ∧ ProductsList.handleExportProducts listStateC3 "2026-10-11"
        = (listStateC3, [Notification.error "Please select at least one product to export"], [])) :=
  ⟨rfl, rfl, C3_empty_selection ordersStateC3 listStateC3 "2026-10-11" rfl rfl⟩

/-- C5 (code bug): the Orders export leaves the date column
(`MMM d, yyyy`, which always contains a comma) and the currency column
(comma-grouped for totals of 1000 and above) unquoted, so a standard CSV
parser does not reconstruct the display values: the row for `oC5` parses
into 7 fields instead of its 5 projected display values. -/
theorem C5_export_not_roundtrip :
    String.intercalate "," (Orders.orderCsvRow oC5)
      = "order-1,\"Alice\",Jan 5, 2023,pending,$1,234.00"
    ∧ parseCsvLine (String.intercalate "," (Orders.orderCsvRow oC5))
      = ["order-1", "Alice", "Jan 5", " 2023", "pending", "$1", "234.00"]
    ∧ parseCsvLine (String.intercalate "," (Orders.orderCsvRow oC5))
      ≠ [oC5.id, oC5.customerName, formatDateMMMdyyyy oC5.createdAt, oC5.status,
          formatCurrency oC5.total] := by
  refine ⟨by decide, by decide, by decide⟩

/-- C6 counterexample: removing the middle character of the query `"abc"`
gives `"ac"`, and the filter result for `"ac"` is strictly smaller than
(and no superset of) the result for `"abc"` over the same source. -/
theorem C6_counterexample :
    List.Sublist "ac".data "abc".data
    ∧ oAbc ∈ Orders.filteredOrders [oAbc] "abc" "all" none SortDirection.asc
    ∧ oAbc ∉ Orders.filteredOrders [oAbc] "ac" "all" none SortDirection.asc
    ∧ (Orders.filteredOrders [oAbc] "ac" "all" none SortDirection.asc).length
        < (Orders.filteredOrders [oAbc] "abc" "all" none SortDirection.asc).length := by
  refine ⟨by decide, by decide, by decide, by decide⟩

/-- C6 (amended): when the widened query `q'` is a contiguous substring
of `q` (in particular when characters are removed at the ends), the
filter result for `q'` is a superset of — never smaller than — the
result for `q`, with the status filter held fixed. -/
theorem C6_filter_monotone (src : List Order) (q q' st : String)
    (h : q'.data <:+: q.data) :
    (∀ o ∈ Orders.filteredOrders src q st none SortDirection.asc,
      o ∈ Orders.filteredOrders src q' st none SortDirection.asc)
    ∧ (Orders.filteredOrders src q st none SortDirection.asc).length
        ≤ (Orders.filteredOrders src q' st none SortDirection.asc).length := by
  have hmono : ∀ o : Order,
      (Orders.matchesSearch q o && Orders.matchesStatus st o) = true →
      (Orders.matchesSearch q' o && Orders.matchesStatus st o) = true := by
    intro o ho
    rcases Bool.and_eq_true_iff.mp ho with ⟨h1, h2⟩
    exact Bool.and_eq_true_iff.mpr ⟨Orders.matchesSearch_mono h o h1, h2⟩
  have hsub : List.Sublist
      (Orders.filteredOrders src q st none SortDirection.asc)
      (Orders.filteredOrders src q' st none SortDirection.asc) :=
    List.monotone_filter_right src hmono
  exact ⟨fun o ho => hsub.subset ho, hsub.length_le⟩

/-- C6 witness: the amended monotonicity at the substring pair
`"ab"` inside `"abc"` over a one-order source. -/
theorem C6_filter_monotone_witness :
    "ab".data <:+: "abc".data
    ∧ ((∀ o ∈ Orders.filteredOrders [oAbc] "abc" "all" none SortDirection.asc,
        o ∈ Orders.filteredOrders [oAbc] "ab" "all" none SortDirection.asc)
      ∧ (Orders.filteredOrders [oAbc] "abc" "all" none SortDirection.asc).length
        ≤ (Orders.filteredOrders [oAbc] "ab" "all" none SortDirection.asc).length) :=
  ⟨by decide, C6_filter_monotone [oAbc] "abc" "ab" "all" (by decide)⟩

/-- C7: the sort is stable — two records of the filtered collection with
equal sort-key values (comparator value 0) that occur in order `[a, b]`
in the unsorted filter result still occur in that relative order after
sorting by any column and direction. -/
theorem C7_sort_stable (src : List Order) (q st : String) (c : Orders.SortColumn)
    (dir : SortDirection) (a b : Order)
    (hk : Orders.orderComparator c dir a b = 0)
    (h : List.Sublist [a, b] (Orders.filteredOrders src q st none SortDirection.asc)) :
    List.Sublist [a, b] (Orders.filteredOrders src q st (some c) dir) := by
  rw [Orders.filteredOrders_some]
  exact jsSort_pair_sublist (Orders.orderComparator_key c dir) (le_of_eq hk) h

/-- C7 witness: stability at two orders tied on the total column. -/
theorem C7_sort_stable_witness :
    Orders.orderComparator Orders.SortColumn.total SortDirection.asc oTie1 oTie2 = 0
    ∧ List.Sublist [oTie1, oTie2]
        (Orders.filteredOrders [oTie1, oTie2] "" "all" none SortDirection.asc)
    ∧ List.Sublist [oTie1, oTie2]
        (Orders.filteredOrders [oTie1, oTie2] "" "all"
          (some Orders.SortColumn.total) SortDirection.asc) :=
  ⟨by decide, by decide,
   C7_sort_stable [oTie1, oTie2] "" "all" Orders.SortColumn.total SortDirection.asc
     oTie1 oTie2 (by decide) (by decide)⟩

/-- C8 counterexample: with two records tied on the total, the stable
sort returns them in input order for both directions, so reversing the
ascending result does not equal the descending result. -/
theorem C8_counterexample :
    (Orders.filteredOrders [oTie1, oTie2] "" "all"
        (some Orders.SortColumn.total) SortDirection.asc).reverse
      ≠ Orders.filteredOrders [oTie1, oTie2] "" "all"
          (some Orders.SortColumn.total) SortDirection.desc := by
  have hf : Orders.filteredOrders [oTie1, oTie2] "" "all" none SortDirection.asc
      = [oTie1, oTie2] := by decide
  have hA : Orders.filteredOrders [oTie1, oTie2] "" "all"
      (some Orders.SortColumn.total) SortDirection.asc = [oTie1, oTie2] := by
    rw [Orders.filteredOrders_some, hf]
    exact jsSort_of_pairwise (List.pairwise_pair.mpr (by decide))
  have hD : Orders.filteredOrders [oTie1, oTie2] "" "all"
      (some Orders.SortColumn.total) SortDirection.desc = [oTie1, oTie2] := by
    rw [Orders.filteredOrders_some, hf]
    exact jsSort_of_pairwise (List.pairwise_pair.mpr (by decide))
  rw [hA, hD]
  decide

/-- C8 (amended): sorting ascending and then reversing equals sorting
descending, provided the records of the filtered collection have
pairwise distinct sort-key values; with ties, stability makes the two
sides differ. -/
theorem C8_sort_reverse (src : List Order) (q st : String) (c : Orders.SortColumn)
    (hdist : (Orders.filteredOrders src q st none SortDirection.asc).Pairwise
      fun a b => Orders.cmpByColumn c a b ≠ 0) :
    (Orders.filteredOrders src q st (some c) SortDirection.asc).reverse
      = Orders.filteredOrders src q st (some c) SortDirection.desc := by
  have hkey := Orders.cmpByColumn_key c
  rw [Orders.filteredOrders_some, Orders.filteredOrders_some]
  set F := Orders.filteredOrders src q st none SortDirection.asc with hFdef
  have hPA : (jsSort (Orders.orderComparator c SortDirection.asc) F).Pairwise
      fun a b => Orders.cmpByColumn c a b ≤ 0 :=
    jsSort_sorted (Orders.orderComparator_key c SortDirection.asc) F
  have hRev : (jsSort (Orders.orderComparator c SortDirection.asc) F).reverse.Pairwise
      fun a b => Orders.cmpByColumn c b a ≤ 0 :=
    List.pairwise_reverse.mpr hPA
  have hPD : (jsSort (Orders.orderComparator c SortDirection.desc) F).Pairwise
      fun a b => Orders.cmpByColumn c b a ≤ 0 :=
    jsSort_sorted (Orders.orderComparator_key c SortDirection.desc) F
  have hpA : (jsSort (Orders.orderComparator c SortDirection.asc) F).reverse.Perm F :=
    (List.reverse_perm _).trans (jsSort_perm _ F)
  have hpD : (jsSort (Orders.orderComparator c SortDirection.desc) F).Perm F :=
    jsSort_perm _ F
  have hsymm : ∀ {x y : Order},
      Orders.cmpByColumn c x y ≠ 0 → Orders.cmpByColumn c y x ≠ 0 :=
    fun hxy h0 => hxy (hkey.zero_symm _ _ h0)
  have hdistA := (List.Perm.pairwise_iff hsymm hpA).mpr hdist
  have hdistD := (List.Perm.pairwise_iff hsymm hpD).mpr hdist
  have hSA := hRev.and hdistA
  have hSD := hPD.and hdistD
  exact eq_of_perm_of_pairwise_asymm
    (fun x y hxy hyx => hxy.2 (hkey.antisymm x y hyx.1 hxy.1))
    (hpA.trans hpD.symm) hSA hSD

/-- C8 witness: the amended round-trip over two orders with distinct
totals. -/
theorem C8_sort_reverse_witness :
    (Orders.filteredOrders [oA, oB] "" "all" none SortDirection.asc).Pairwise
      (fun a b => Orders.cmpByColumn Orders.SortColumn.total a b ≠ 0)
    ∧ (Orders.filteredOrders [oA, oB] "" "all"
        (some Orders.SortColumn.total) SortDirection.asc).reverse
      = Orders.filteredOrders [oA, oB] "" "all"
          (some Orders.SortColumn.total) SortDirection.desc :=
  ⟨by decide, C8_sort_reverse [oA, oB] "" "all" Orders.SortColumn.total (by decide)⟩

/-- C1: the paginated result is the slice `[(p-1)*s, p*s)` of the
filtered-and-ordered collection (stated as take-then-drop against the
implementation's drop-then-take); and in the 45-order scenario with
empty query and status filter `"cancelled"`, the filtered count equals
the number of orders whose status is exactly `"cancelled"` and page 1 of
size 10 equals the first ten filtered orders. -/
theorem C1_pagination (l src : List Order) (p s : Nat) (hp : 1 ≤ p)
    (h45 : src.length = 45) :
    Orders.paginatedOrders l p s = (l.take (p * s)).drop ((p - 1) * s)
    ∧ (Orders.filteredOrders src "" "cancelled" none SortDirection.asc).length
        = (src.filter fun o => o.status == "cancelled").length
    ∧ Orders.paginatedOrders
        (Orders.filteredOrders src "" "cancelled" none SortDirection.asc) 1 10
      = (Orders.filteredOrders src "" "cancelled" none SortDirection.asc).take 10 := by
  refine ⟨?_, ?_, ?_⟩
  · obtain ⟨k, rfl⟩ : ∃ k, p = k + 1 := ⟨p - 1, by omega⟩
    unfold Orders.paginatedOrders jsSlice
    rw [List.drop_take]
    simp [Nat.add_sub_cancel, Nat.succ_mul, Nat.add_sub_cancel_left]
  · have hcongr : ∀ o ∈ src,
        (Orders.matchesSearch "" o && Orders.matchesStatus "cancelled" o)
          = (o.status == "cancelled") := by
      intro o _
      have h1 : Orders.matchesSearch "" o = true := by
        unfold Orders.matchesSearch
        have hq : jsToLower "" = [] := rfl
        rw [hq]
        unfold jsIncludes
        rw [decide_eq_true List.nil_infix]
        simp
      rw [h1]
      unfold Orders.matchesStatus
      rw [show ("cancelled" == "all") = false from rfl]
      simp
    show (List.filter _ src).length = _
    rw [List.filter_congr hcongr]
  · unfold Orders.paginatedOrders jsSlice
    simp

/-- C1 witness: the pagination law and the concrete 45-order scenario at
the deterministic source `srcW`, page 2, size 10. -/
theorem C1_pagination_witness :
    1 ≤ 2
    ∧ srcW.length = 45
    ∧ (Orders.paginatedOrders srcW 2 10 = (srcW.take (2 * 10)).drop ((2 - 1) * 10)
      ∧ (Orders.filteredOrders srcW "" "cancelled" none SortDirection.asc).length
          = (srcW.filter fun o => o.status == "cancelled").length
      ∧ Orders.paginatedOrders
          (Orders.filteredOrders srcW "" "cancelled" none SortDirection.asc) 1 10
        = (Orders.filteredOrders srcW "" "cancelled" none SortDirection.asc).take 10) :=
  ⟨by decide, by simp [srcW], C1_pagination srcW srcW 2 10 (by decide) (by simp [srcW])⟩
